import Mathlib

/-!
Shallow embedding of the ha-monarchmoney Home Assistant integration
(custom_components/monarchmoney): const.py, config_flow.py,
update_coordinator.py and sensor.py, together with theorems checking the
natural-language specification against it.

Remote calls (the monarchmoney client library and the Monarch web service)
are external collaborators: they are modelled as environment parameters
whose results are either a value or a raised exception.
-/

namespace Monarch

/-- Test that the first character list starts the second one. -/
def charsStart : List Char → List Char → Bool
  | [], _ => true
  | _ :: _, [] => false
  | a :: as, b :: bs => a == b && charsStart as bs

/-- Test that the first character list occurs inside the second one. -/
def charsOccur (sub : List Char) : List Char → Bool
  | [] => charsStart sub []
  | c :: rest => charsStart sub (c :: rest) || charsOccur sub rest

/-- Python substring test (the expression sub in s). -/
def containsSub (s sub : String) : Bool :=
  charsOccur sub.data s.data

/-- Python str.lower on the ASCII error messages. -/
def pyLower (s : String) : String :=
  ⟨s.data.map Char.toLower⟩

deriving instance DecidableEq for Except

/-- List VALUES_SCAN_INTERVAL from const.py. -/
def VALUES_SCAN_INTERVAL : List Nat := [60, 120, 600, 1800, 3600, 21600, 86400]

/-- List VALUES_TIMEOUT from const.py. -/
def VALUES_TIMEOUT : List Nat := [10, 15, 30, 45, 60]

/-- Constant DEFAULT_SCAN_INTERVAL, defined in const.py as
VALUES_SCAN_INTERVAL[4]. -/
def DEFAULT_SCAN_INTERVAL : Nat := VALUES_SCAN_INTERVAL.get ⟨4, by decide⟩

/-- Constant DEFAULT_TIMEOUT, defined in const.py as VALUES_TIMEOUT[2]. -/
def DEFAULT_TIMEOUT : Nat := VALUES_TIMEOUT.get ⟨2, by decide⟩

/-- Python round to an integer: round half to even (banker's rounding).
Currency amounts are modelled as rationals. -/
def pyRound (q : ℚ) : ℤ :=
  if q - ⌊q⌋ = 1 / 2 then (if ⌊q⌋ % 2 = 0 then ⌊q⌋ else ⌊q⌋ + 1) else round q

/-- Fields of one account object consumed by sensor.py: displayBalance,
isAsset, includeInNetWorth, isHidden, plus the descriptive fields. -/
structure Account where
  id : String
  displayName : String
  displayBalance : ℚ
  typeName : String
  isAsset : Bool
  includeInNetWorth : Bool
  isHidden : Bool
deriving DecidableEq

/-- Fields of one transaction category: name and group type
("income", "expense" or other). -/
structure CategoryEntry where
  name : String
  groupType : String
deriving DecidableEq

/-- Fields of the cashflow summary dict (the inner "summary" object). -/
structure CashSummary where
  sumIncome : ℚ
  sumExpense : ℚ
  savings : ℚ
  savingsRate : ℚ
deriving DecidableEq

/-- One element of the cashflow "summary" list: a dict holding the
summary object under the "summary" key. -/
structure CashSummaryEntry where
  summary : CashSummary
deriving DecidableEq

/-- One element of the cashflow "byCategory" list: groupBy.category.name,
groupBy.category.group.type and summary.sum, the three paths read by
sensor.py. -/
structure ByCategoryEntry where
  categoryName : String
  categoryGroupType : String
  summarySum : ℚ
deriving DecidableEq

/-- The cashflow dataset: "summary" and "byCategory" lists. -/
structure Cashflow where
  summary : List CashSummaryEntry
  byCategory : List ByCategoryEntry
deriving DecidableEq

/-- An empty cashflow dict (the "or \x7b\x7d" fallback in the coordinator). -/
def emptyCashflow : Cashflow := { summary := [], byCategory := [] }

/-- The dict built by MonarchCoordinator._async_update_data: accounts,
categories and cashflow of one successful poll cycle. -/
structure SnapshotData where
  accounts : List Account
  categories : List CategoryEntry
  cashflow : Cashflow
deriving DecidableEq

/-- Python exceptions raised by the sensor update callbacks. -/
inductive PyErr where
  | keyError (key : String)
  | indexError
deriving DecidableEq

/-- A Python dict from category name to accumulated amount, as an ordered
association list (insertion order, in-place update). -/
abbrev CatDict := List (String × ℚ)

/-- Keys of a category dict. -/
def dictKeys (d : CatDict) : List String := d.map (fun p => p.1)

/-- Python dict assignment d[k] = v: update in place when the key exists,
append otherwise. -/
def dictSet (d : CatDict) (k : String) (v : ℚ) : CatDict :=
  match d with
  | [] => [(k, v)]
  | (k0, v0) :: rest =>
    if k0 = k then (k0, v) :: rest else (k0, v0) :: dictSet rest k v

/-- Python dict accumulation d[k] += v: raises KeyError when k is absent. -/
def dictAddTo (d : CatDict) (k : String) (v : ℚ) : Except PyErr CatDict :=
  match d with
  | [] => .error (.keyError k)
  | (k0, v0) :: rest =>
    if k0 = k then .ok ((k0, v0 + v) :: rest)
    else
      match dictAddTo rest k v with
      | .error e => .error e
      | .ok rest2 => .ok ((k0, v0) :: rest2)

/-- Accounts passing the net-worth activity filter in
MonarchMoneyNetWorthSensor: includeInNetWorth is True and isHidden is
False. -/
def activeAccounts (accounts : List Account) : List Account :=
  accounts.filter (fun a => a.includeInNetWorth == true && a.isHidden == false)

/-- Asset accounts of the net-worth sensor: active accounts whose isAsset
is True. -/
def assetAccounts (accounts : List Account) : List Account :=
  (activeAccounts accounts).filter (fun a => a.isAsset == true)

/-- Liability accounts of the net-worth sensor: every account whose
isAsset is False, taken from the full accounts list (not the active
ones). -/
def liabilityAccounts (accounts : List Account) : List Account :=
  accounts.filter (fun a => a.isAsset == false)

/-- Sum of displayBalance over a list of accounts. -/
def balanceSum (accounts : List Account) : ℚ :=
  (accounts.map (fun a => a.displayBalance)).sum

/-- Rounded asset sum of the net-worth sensor. -/
def assetAccountsSum (accounts : List Account) : ℤ :=
  pyRound (balanceSum (assetAccounts accounts))

/-- Rounded liability sum of the net-worth sensor. -/
def liabilityAccountsSum (accounts : List Account) : ℤ :=
  pyRound (balanceSum (liabilityAccounts accounts))

/-- State and attributes written by
MonarchMoneyNetWorthSensor._handle_coordinator_update. -/
structure NetWorthState where
  state : ℤ
  assets : ℤ
  liabilities : ℤ
deriving DecidableEq

/-- Embedding of MonarchMoneyNetWorthSensor._handle_coordinator_update:
state is the rounded asset sum minus the rounded liability sum. -/
def netWorthHandleUpdate (accounts : List Account) : NetWorthState :=
  { state := assetAccountsSum accounts - liabilityAccountsSum accounts
  , assets := assetAccountsSum accounts
  , liabilities := liabilityAccountsSum accounts }

/-- Access cashflow summary[0].summary; an empty or missing summary list
raises (IndexError, or AttributeError through the default path of the
income and expense sensors); both are folded into indexError. -/
def summaryHead (cf : Cashflow) : Except PyErr CashSummary :=
  match cf.summary with
  | [] => .error .indexError
  | e :: _ => .ok e.summary

/-- State and attributes written by
MonarchMoneyCashFlowSensor._handle_coordinator_update. -/
structure CashFlowState where
  state : ℚ
  income : ℚ
  expenses : ℚ
  savings : ℚ
  savingsRate : ℚ
deriving DecidableEq

/-- Embedding of MonarchMoneyCashFlowSensor._handle_coordinator_update. -/
def cashFlowHandleUpdate (d : SnapshotData) : Except PyErr CashFlowState :=
  match summaryHead d.cashflow with
  | .error e => .error e
  | .ok c =>
    .ok { state := c.savings, income := c.sumIncome, expenses := c.sumExpense
        , savings := c.savings, savingsRate := c.savingsRate * 100 }

/-- State and per-category attributes of the income and expense sensors. -/
structure CatSensorState where
  state : ℚ
  cats : CatDict
deriving DecidableEq

/-- Initial per-category dict: one zero entry for every category whose
group type matches. -/
def initCats (cats : List CategoryEntry) (groupType : String) : CatDict :=
  (cats.filter (fun c => c.groupType == groupType)).foldl
    (fun m c => dictSet m c.name 0) []

/-- Names of the categories whose group type matches. -/
def categoryNames (cats : List CategoryEntry) (groupType : String) : List String :=
  (cats.filter (fun c => c.groupType == groupType)).map (fun c => c.name)

/-- Accumulation loop over cashflow byCategory entries of the matching
group type; the dict access d[name] += sign * sum raises KeyError on a
name that is not a key. -/
def accumCats (init : CatDict) (xs : List ByCategoryEntry) (groupType : String)
    (sign : ℚ) : Except PyErr CatDict :=
  match xs with
  | [] => .ok init
  | c :: rest =>
    if c.categoryGroupType == groupType then
      match dictAddTo init c.categoryName (sign * c.summarySum) with
      | .error e => .error e
      | .ok m2 => accumCats m2 rest groupType sign
    else accumCats init rest groupType sign

/-- Embedding of MonarchMoneyIncomeSensor._handle_coordinator_update:
build the zeroed income-category dict, accumulate byCategory sums, then
read summary[0].summary.sumIncome as the state. -/
def incomeHandleUpdate (d : SnapshotData) : Except PyErr CatSensorState :=
  match accumCats (initCats d.categories "income") d.cashflow.byCategory "income" 1 with
  | .error e => .error e
  | .ok cats =>
    match summaryHead d.cashflow with
    | .error e => .error e
    | .ok c => .ok { state := c.sumIncome, cats := cats }

/-- Embedding of MonarchMoneyExpenseSensor._handle_coordinator_update:
same shape with expense categories, accumulation of -1 * sum, and state
-1 * sumExpense. -/
def expenseHandleUpdate (d : SnapshotData) : Except PyErr CatSensorState :=
  match accumCats (initCats d.categories "expense") d.cashflow.byCategory "expense" (-1) with
  | .error e => .error e
  | .ok cats =>
    match summaryHead d.cashflow with
    | .error e => .error e
    | .ok c => .ok { state := -1 * c.sumExpense, cats := cats }

/-- Error classes raised by MonarchConfigFlow to drive the UI:
RequireMFA, RateLimited, InvalidAuth. -/
inductive FlowError where
  | requireMFA
  | rateLimited
  | invalidAuth
deriving DecidableEq

/-- Exceptions raised by the monarchmoney client library (an external
collaborator): RequireMFAException, LoginFailedException with a message,
or any other exception with a message. -/
inductive LibExc where
  | requireMFA
  | loginFailed (msg : String)
  | other (msg : String)
deriving DecidableEq

/-- Python str of a library exception.  RequireMFAException is always
caught by type before any message inspection, so its text is arbitrary. -/
def libExcMsg : LibExc → String
  | .requireMFA => "Require MFA"
  | .loginFailed m => m
  | .other m => m

/-- Classification of a LoginFailedException message in
MonarchConfigFlow._test_connection_and_set_token (lines 138-156): the
429 / too-many-requests check runs first, the MFA-related substring
check second, and anything else is InvalidAuth.  All substring tests run
on the lowercased message. -/
def classifyLoginFailed (msg : String) : FlowError :=
  let e := pyLower msg
  if containsSub e "429" || containsSub e "too many requests" then .rateLimited
  else if containsSub e "401" || containsSub e "unauthorized" || containsSub e "mfa" ||
      containsSub e "multi-factor" || containsSub e "authentication" then .requireMFA
  else .invalidAuth

/-- Classification in the generic except-Exception branch of
_test_connection_and_set_token (lines 157-170): MFA-related substrings,
else InvalidAuth; there is no rate-limit check on this path. -/
def classifyOtherExc (msg : String) : FlowError :=
  let e := pyLower msg
  if containsSub e "401" || containsSub e "unauthorized" || containsSub e "mfa" ||
      containsSub e "multi-factor" || containsSub e "authentication" then .requireMFA
  else .invalidAuth

/-- Rate-limit substring condition of the LoginFailedException branch. -/
def hasRateLimitSub (msg : String) : Bool :=
  containsSub (pyLower msg) "429" || containsSub (pyLower msg) "too many requests"

/-- MFA-related substring condition of the LoginFailedException branch. -/
def hasMfaSub (msg : String) : Bool :=
  containsSub (pyLower msg) "401" || containsSub (pyLower msg) "unauthorized" ||
    containsSub (pyLower msg) "mfa" || containsSub (pyLower msg) "multi-factor" ||
    containsSub (pyLower msg) "authentication"

/-- Modelled from the spec: the precedence order the specification claims
for the classification function, with the MFA-related substring checks
evaluated first and the rate-limit checks second. -/
def classifyLoginFailedSpecOrder (msg : String) : FlowError :=
  let e := pyLower msg
  if containsSub e "401" || containsSub e "unauthorized" || containsSub e "mfa" ||
      containsSub e "multi-factor" || containsSub e "authentication" then .requireMFA
  else if containsSub e "429" || containsSub e "too many requests" then .rateLimited
  else .invalidAuth

/-- Embedding of MonarchConfigFlow._test_connection_and_set_token.  The
login call (with or without the stored MFA secret, depending on whether
one is configured) and the follow-up authenticated access
(get_accounts plus session save) are environment parameters; each either
succeeds or raises a library exception, which the two try/except ladders
classify into a FlowError. -/
def testConnectionAndSetToken (hasMfaSecret : Bool)
    (login : Bool → Except LibExc Unit)
    (postLogin : Except LibExc Unit) : Except FlowError Unit :=
  match login hasMfaSecret with
  | .error .requireMFA => .error .requireMFA
  | .error (.loginFailed m) => .error (classifyLoginFailed m)
  | .error (.other m) => .error (classifyOtherExc m)
  | .ok _ =>
    match postLogin with
    | .error .requireMFA => .error .requireMFA
    | .error (.loginFailed m) => .error (classifyLoginFailed m)
    | .error (.other m) => .error (classifyOtherExc m)
    | .ok _ => .ok ()

/-- Authentication-error test of MonarchCoordinator._async_update_data:
"unauthorized" or "authentication" in the lowercased message, or "401"
in the raw message. -/
def isAuthErrorMsg (msg : String) : Bool :=
  containsSub (pyLower msg) "unauthorized" || containsSub (pyLower msg) "authentication" ||
    containsSub msg "401"

/-- Coordinator-side mutable state: the time of the last re-authentication
attempt (time.time, initially 0). -/
structure AuthState where
  lastAuthAttempt : ℚ
deriving DecidableEq

/-- Configuration-entry data read by the coordinator. -/
structure CoordConfig where
  email : Option String
  password : Option String
  mfaSecret : Option String
deriving DecidableEq

/-- Python truthiness of an optional string (missing key or empty string
are falsy). -/
def truthyOptStr : Option String → Bool
  | none => false
  | some s => !(s == "")

/-- Condition mfa_secret and mfa_secret.strip(): a configured, non-blank
MFA secret. -/
def mfaSecretUsable : Option String → Bool
  | none => false
  | some s => !(s.trim == "")

/-- Result of one call to
MonarchCoordinator._authenticate_with_credentials: the returned Bool,
the state after the call, and how many live logins were issued against
the remote service (0 or 1). -/
structure AuthOutcome where
  success : Bool
  state : AuthState
  liveLogins : Nat
deriving DecidableEq

/-- Embedding of MonarchCoordinator._authenticate_with_credentials.  The
body runs under the auth lock, so one call is modelled as one atomic
step: the rate-limit gate short-circuits attempts less than 60 seconds
after the recorded one; otherwise the attempt time is recorded, the
credentials are checked, and a fresh login (with the MFA secret when one
is usable) plus a session save are issued; every exception path returns
False. -/
def authenticateWithCredentials (cfg : CoordConfig) (st : AuthState) (now : ℚ)
    (login : Bool → Except LibExc Unit)
    (saveSession : Except LibExc Unit) : AuthOutcome :=
  if now - st.lastAuthAttempt < 60 then
    { success := false, state := st, liveLogins := 0 }
  else if !truthyOptStr cfg.email || !truthyOptStr cfg.password then
    { success := false, state := { lastAuthAttempt := now }, liveLogins := 0 }
  else
    match login (mfaSecretUsable cfg.mfaSecret) with
    | .ok _ =>
      match saveSession with
      | .ok _ =>
        { success := true, state := { lastAuthAttempt := now }, liveLogins := 1 }
      | .error _ =>
        { success := false, state := { lastAuthAttempt := now }, liveLogins := 1 }
    | .error _ =>
      { success := false, state := { lastAuthAttempt := now }, liveLogins := 1 }

/-- Environment of one poll cycle: the three remote fetches (the Bool
argument tells the initial attempt from the post-re-authentication
retry), each returning the looked-up payload (None when the key is
missing) or raising, and the outcome of _authenticate_with_credentials. -/
structure PollEnv where
  getAccounts : Bool → Except LibExc (Option (List Account))
  getCategories : Bool → Except LibExc (Option (List CategoryEntry))
  getCashflow : Bool → Except LibExc (Option Cashflow)
  reauthSucceeds : Bool

/-- One pass of the three sequential fetches of _async_update_data,
assembling the data dict; a raise in any call aborts the pass. -/
def fetchSequence (env : PollEnv) (retry : Bool) : Except LibExc SnapshotData :=
  match env.getAccounts retry with
  | .error e => .error e
  | .ok accounts =>
    match env.getCategories retry with
    | .error e => .error e
    | .ok categories =>
      match env.getCashflow retry with
      | .error e => .error e
      | .ok cashflow =>
        .ok { accounts := accounts.getD []
            , categories := categories.getD []
            , cashflow := cashflow.getD emptyCashflow }

/-- Exceptions that can propagate out of the body of _async_update_data:
a raw library exception, ConfigEntryAuthFailed, or UpdateFailed. -/
inductive InnerExc where
  | lib (e : LibExc)
  | configEntryAuthFailed
  | updateFailed (msg : String)
deriving DecidableEq

/-- Python str of an inner exception, used when the outer handler wraps
it into an UpdateFailed message. -/
def innerExcMsg : InnerExc → String
  | .lib e => libExcMsg e
  | .configEntryAuthFailed => "Authentication failed"
  | .updateFailed m => m

/-- Observable counters of one cycle: how often
_authenticate_with_credentials was invoked and how many fetch sequences
were started. -/
structure CycleTrace where
  reauthCalls : Nat
  fetchAttempts : Nat
deriving DecidableEq

/-- The except-Exception branch of the inner try of _async_update_data:
on an auth-classified message, re-authenticate once and, on success,
retry the whole sequence once, converting any retry failure to
ConfigEntryAuthFailed; on re-authentication failure raise
ConfigEntryAuthFailed; on a non-auth message raise UpdateFailed. -/
def updateAuthBranch (env : PollEnv) (msg : String) :
    Except InnerExc SnapshotData × CycleTrace :=
  if isAuthErrorMsg msg then
    if env.reauthSucceeds then
      match fetchSequence env true with
      | .ok d => (.ok d, ⟨1, 2⟩)
      | .error _ => (.error .configEntryAuthFailed, ⟨1, 2⟩)
    else (.error .configEntryAuthFailed, ⟨1, 1⟩)
  else (.error (.updateFailed ("Error communicating with API: " ++ msg)), ⟨0, 1⟩)

/-- Body of _async_update_data inside the timeout block: run the initial
fetch sequence; RequireMFAException raises ConfigEntryAuthFailed, any
other exception goes through the auth-classification branch. -/
def updateInner (env : PollEnv) : Except InnerExc SnapshotData × CycleTrace :=
  match fetchSequence env false with
  | .ok d => (.ok d, ⟨0, 1⟩)
  | .error .requireMFA => (.error .configEntryAuthFailed, ⟨0, 1⟩)
  | .error (.loginFailed m) => updateAuthBranch env m
  | .error (.other m) => updateAuthBranch env m

/-- Embedding of MonarchCoordinator._async_update_data: the outer
try/except re-raises ConfigEntryAuthFailed as ConfigEntryAuthFailed and
wraps every other exception into UpdateFailed. -/
def asyncUpdateData (env : PollEnv) : Except InnerExc SnapshotData :=
  match (updateInner env).1 with
  | .ok d => .ok d
  | .error .configEntryAuthFailed => .error .configEntryAuthFailed
  | .error e => .error (.updateFailed ("Error communicating with API: " ++ innerExcMsg e))

/-- Counters of one poll cycle. -/
def cycleTrace (env : PollEnv) : CycleTrace := (updateInner env).2

/-- C4 counterexample: the default poll interval defined in const.py is
VALUES_SCAN_INTERVAL[4] = 3600 seconds (1 h), not the 21600 seconds the
claim states. -/
theorem c4_counterexample :
    DEFAULT_SCAN_INTERVAL = 3600 ∧ DEFAULT_SCAN_INTERVAL ≠ 21600 := by decide

/-- C4 (amended): the default poll interval is 3600 seconds (1 h) and the
default per-cycle timeout is 30 seconds, each drawn from its enumerated
set of allowed values. -/
theorem c4_theorem :
    DEFAULT_SCAN_INTERVAL = 3600 ∧ DEFAULT_TIMEOUT = 30 ∧
      DEFAULT_SCAN_INTERVAL ∈ VALUES_SCAN_INTERVAL ∧
      DEFAULT_TIMEOUT ∈ VALUES_TIMEOUT := by decide

/-- Snapshot of the C8 scenario: cashflow summary with sumIncome 5000,
sumExpense -3000, savings 2000, savingsRate 0.4. -/
def snapC8 : SnapshotData :=
  { accounts := []
  , categories := []
  , cashflow :=
    { summary :=
        [{ summary :=
            { sumIncome := 5000, sumExpense := -3000, savings := 2000
            , savingsRate := 0.4 } }]
    , byCategory := [] } }

/-- C8: on the scenario snapshot, the income sensor state is 5000, the
expense sensor state is 3000 (the sign-flipped sumExpense), the cash-flow
sensor state and savings are 2000, and its savings-rate attribute is 40
(savingsRate times 100). -/
theorem c8_theorem :
    cashFlowHandleUpdate snapC8 =
      .ok { state := 2000, income := 5000, expenses := -3000, savings := 2000
          , savingsRate := 40 } ∧
    incomeHandleUpdate snapC8 = .ok { state := 5000, cats := [] } ∧
    expenseHandleUpdate snapC8 = .ok { state := 3000, cats := [] } := by
  refine ⟨?_, ?_, ?_⟩ <;>
    norm_num [cashFlowHandleUpdate, incomeHandleUpdate, expenseHandleUpdate,
      summaryHead, snapC8, accumCats, initCats]

/-- C3 counterexample: a login failure whose message holds both an MFA
substring and a rate-limit substring is classified RateLimited by the
code, while the precedence the claim states (MFA first) would classify
it RequireMFA. -/
theorem c3_counterexample :
    classifyLoginFailed "mfa failed: 429 too many requests" = .rateLimited ∧
    classifyLoginFailedSpecOrder "mfa failed: 429 too many requests" = .requireMFA := by
  decide

/-- C3 (amended): the classification of a login-failure message applies
the precedence of the source: the rate-limit (429 / too-many-requests)
checks are evaluated first, the MFA-related substring checks second, and
any remaining rejection is classified invalid-auth. -/
theorem c3_theorem (msg : String) :
    (hasRateLimitSub msg = true → classifyLoginFailed msg = .rateLimited) ∧
    (hasRateLimitSub msg = false → hasMfaSub msg = true →
      classifyLoginFailed msg = .requireMFA) ∧
    (hasRateLimitSub msg = false → hasMfaSub msg = false →
      classifyLoginFailed msg = .invalidAuth) := by
  simp only [hasRateLimitSub, hasMfaSub, classifyLoginFailed, Bool.or_eq_true,
    Bool.or_eq_false_iff]
  refine ⟨fun h => ?_, fun h1 h2 => ?_, fun h1 h2 => ?_⟩
  · rw [if_pos (by simpa using h)]
  · rw [if_neg (by simpa using h1), if_pos (by simpa using h2)]
  · rw [if_neg (by simpa using h1), if_neg (by simpa using h2)]

/-- C3 witness: a pure rate-limit message is classified RateLimited. -/
theorem c3_witness :
    hasRateLimitSub "429 too many requests" = true ∧
    classifyLoginFailed "429 too many requests" = .rateLimited := by
  have h := c3_theorem "429 too many requests"
  exact ⟨by decide, h.1 (by decide)⟩

/-- Rounding sits within one half of the argument, on either side. -/
theorem pyRound_bounds (q : ℚ) :
    q - 1 / 2 ≤ (pyRound q : ℚ) ∧ (pyRound q : ℚ) ≤ q + 1 / 2 := by
  unfold pyRound
  split_ifs with h hp
  · have : (⌊q⌋ : ℚ) = q - 1 / 2 := by linarith
    rw [this]; constructor <;> linarith
  · have : (⌊q⌋ : ℚ) = q - 1 / 2 := by linarith
    push_cast
    rw [this]; constructor <;> linarith
  · have hb := abs_sub_round q
    rw [abs_le] at hb
    constructor <;> linarith [hb.1, hb.2]

/-- Rounding is strictly monotone across a gap of more than one. -/
theorem pyRound_lt_pyRound (x y : ℚ) (h : x + 1 < y) : pyRound x < pyRound y := by
  have hx := (pyRound_bounds x).2
  have hy := (pyRound_bounds y).1
  have : (pyRound x : ℚ) < (pyRound y : ℚ) := by linarith
  exact_mod_cast this

/-- C9: the asset sum of the net-worth sensor ranges over accounts that
are included, unhidden and assets, but the liability sum ranges over
every account with isAsset false, hidden or excluded ones included: a
hidden or excluded liability account is kept in the liability list,
leaves the asset sum unchanged, and (once its balance exceeds the
rounding slack) strictly reduces the reported net worth. -/
theorem c9_theorem (l : List Account) (a : Account)
    (hliab : a.isAsset = false)
    (hexc : a.isHidden = true ∨ a.includeInNetWorth = false) :
    liabilityAccounts (a :: l) = a :: liabilityAccounts l ∧
    assetAccountsSum (a :: l) = assetAccountsSum l ∧
    (1 < a.displayBalance →
      (netWorthHandleUpdate (a :: l)).state < (netWorthHandleUpdate l).state) := by
  have hliabcons : liabilityAccounts (a :: l) = a :: liabilityAccounts l := by
    simp [liabilityAccounts, List.filter_cons, hliab]
  have hactive : activeAccounts (a :: l) = activeAccounts l := by
    rcases hexc with h | h <;> simp [activeAccounts, List.filter_cons, h]
  have hassets : assetAccountsSum (a :: l) = assetAccountsSum l := by
    unfold assetAccountsSum assetAccounts
    rw [hactive]
  refine ⟨hliabcons, hassets, fun hb => ?_⟩
  have hsum : balanceSum (liabilityAccounts (a :: l)) =
      a.displayBalance + balanceSum (liabilityAccounts l) := by
    rw [hliabcons]; simp [balanceSum]
  have hlt : liabilityAccountsSum l < liabilityAccountsSum (a :: l) := by
    unfold liabilityAccountsSum
    rw [hsum]
    exact pyRound_lt_pyRound _ _ (by linarith)
  simp only [netWorthHandleUpdate, hassets]
  omega

/-- Concrete hidden liability account for the C9 witness. -/
def accC9 : Account :=
  { id := "cc1", displayName := "Hidden card", displayBalance := 100
  , typeName := "credit", isAsset := false, includeInNetWorth := false
  , isHidden := true }

/-- C9 witness: the hidden, excluded liability account lowers the
reported net worth. -/
theorem c9_witness :
    (netWorthHandleUpdate [accC9]).state < (netWorthHandleUpdate []).state :=
  (c9_theorem [] accC9 rfl (Or.inl rfl)).2.2 (by norm_num [accC9])

/-- Membership in the keys after a Python dict assignment. -/
theorem mem_dictKeys_dictSet (d : CatDict) (k : String) (v : ℚ) (m : String) :
    m ∈ dictKeys (dictSet d k v) ↔ m = k ∨ m ∈ dictKeys d := by
  induction d with
  | nil => simp [dictSet, dictKeys]
  | cons p rest ih =>
    obtain ⟨k0, v0⟩ := p
    by_cases h : k0 = k
    · subst h
      simp [dictSet, dictKeys]
    · simp only [dictSet, if_neg h, dictKeys, List.map_cons, List.mem_cons]
      rw [show (rest.map fun p => p.1) = dictKeys rest from rfl] at *
      constructor
      · rintro (rfl | hm)
        · tauto
        · rcases (ih).mp hm with rfl | hm2 <;> tauto
      · rintro (rfl | rfl | hm)
        · right; exact (ih).mpr (Or.inl rfl)
        · left; rfl
        · right; exact (ih).mpr (Or.inr hm)

/-- Keys accumulated by the zero-initialisation fold. -/
theorem mem_dictKeys_initFold (xs : List CategoryEntry) (d : CatDict) (m : String) :
    m ∈ dictKeys (xs.foldl (fun acc c => dictSet acc c.name 0) d) ↔
      m ∈ dictKeys d ∨ m ∈ xs.map (fun c => c.name) := by
  induction xs generalizing d with
  | nil => simp
  | cons c rest ih =>
    simp only [List.foldl_cons, List.map_cons, List.mem_cons]
    rw [ih, mem_dictKeys_dictSet]
    tauto

/-- Keys of the initial per-category dict are exactly the matching
category names. -/
theorem mem_dictKeys_initCats (cats : List CategoryEntry) (g m : String) :
    m ∈ dictKeys (initCats cats g) ↔ m ∈ categoryNames cats g := by
  unfold initCats categoryNames
  rw [mem_dictKeys_initFold]
  simp [dictKeys]

/-- Accumulating into an absent key raises KeyError. -/
theorem dictAddTo_not_mem (d : CatDict) (k : String) (v : ℚ)
    (h : k ∉ dictKeys d) : dictAddTo d k v = .error (.keyError k) := by
  induction d with
  | nil => rfl
  | cons p rest ih =>
    obtain ⟨k0, v0⟩ := p
    simp only [dictKeys, List.map_cons, List.mem_cons, not_or] at h
    have hne : ¬k0 = k := fun hk => h.1 hk.symm
    simp only [dictAddTo, if_neg hne]
    rw [ih h.2]

/-- Accumulating into a present key succeeds and keeps the keys. -/
theorem dictAddTo_mem (d : CatDict) (k : String) (v : ℚ)
    (h : k ∈ dictKeys d) :
    ∃ d2, dictAddTo d k v = .ok d2 ∧ dictKeys d2 = dictKeys d := by
  induction d with
  | nil => simp [dictKeys] at h
  | cons p rest ih =>
    obtain ⟨k0, v0⟩ := p
    by_cases hk : k0 = k
    · subst hk
      exact ⟨(k0, v0 + v) :: rest, by simp [dictAddTo], rfl⟩
    · have hr : k ∈ dictKeys rest := by
        simp only [dictKeys, List.map_cons, List.mem_cons] at h
        rcases h with rfl | h
        · exact absurd rfl hk
        · exact h
      obtain ⟨r2, hr2, hkeys⟩ := ih hr
      refine ⟨(k0, v0) :: r2, ?_, ?_⟩
      · simp only [dictAddTo, if_neg hk, hr2]
      · exact congrArg (fun l => k0 :: l) hkeys


/-- A matching byCategory entry whose name is not a key makes the
accumulation loop raise KeyError. -/
theorem accumCats_err (xs : List ByCategoryEntry) (g : String) (s : ℚ) :
    ∀ m : CatDict,
      (∃ e, e ∈ xs ∧ e.categoryGroupType = g ∧ e.categoryName ∉ dictKeys m) →
      ∃ k, accumCats m xs g s = .error (.keyError k) := by
  induction xs with
  | nil =>
    rintro m ⟨e, he, -, -⟩
    simp at he
  | cons c rest ih =>
    rintro m ⟨e, he, hty, hnm⟩
    by_cases hc : c.categoryGroupType = g
    · have hcb : (c.categoryGroupType == g) = true := by simpa using hc
      by_cases hk : c.categoryName ∈ dictKeys m
      · obtain ⟨m2, hm2, hkeys⟩ := dictAddTo_mem m c.categoryName (s * c.summarySum) hk
        have step : accumCats m (c :: rest) g s = accumCats m2 rest g s := by
          simp [accumCats, hcb, hm2]
        rw [step]
        apply ih m2
        rcases List.mem_cons.mp he with rfl | hrest
        · exact absurd hk hnm
        · exact ⟨e, hrest, hty, by rw [hkeys]; exact hnm⟩
      · refine ⟨c.categoryName, ?_⟩
        simp [accumCats, hcb, dictAddTo_not_mem m c.categoryName (s * c.summarySum) hk]
    · have hcb : (c.categoryGroupType == g) = false := by simpa using hc
      have step : accumCats m (c :: rest) g s = accumCats m rest g s := by
        simp [accumCats, hcb]
      rw [step]
      apply ih m
      rcases List.mem_cons.mp he with rfl | hrest
      · exact absurd hty hc
      · exact ⟨e, hrest, hty, hnm⟩

/-- C10: the per-category accumulation of the income and expense sensors
is partial: a byCategory entry of the matching group type whose category
name is absent from the matching categories makes the update callback
raise an uncaught KeyError instead of producing a value. -/
theorem c10_theorem (d : SnapshotData) :
    ((∃ e, e ∈ d.cashflow.byCategory ∧ e.categoryGroupType = "income" ∧
        e.categoryName ∉ categoryNames d.categories "income") →
      ∃ k, incomeHandleUpdate d = .error (.keyError k)) ∧
    ((∃ e, e ∈ d.cashflow.byCategory ∧ e.categoryGroupType = "expense" ∧
        e.categoryName ∉ categoryNames d.categories "expense") →
      ∃ k, expenseHandleUpdate d = .error (.keyError k)) := by
  constructor
  · rintro ⟨e, he, hty, hnm⟩
    have hnm2 : e.categoryName ∉ dictKeys (initCats d.categories "income") := by
      rw [mem_dictKeys_initCats]; exact hnm
    obtain ⟨k, hk⟩ :=
      accumCats_err d.cashflow.byCategory "income" 1
        (initCats d.categories "income") ⟨e, he, hty, hnm2⟩
    refine ⟨k, ?_⟩
    unfold incomeHandleUpdate
    rw [hk]
  · rintro ⟨e, he, hty, hnm⟩
    have hnm2 : e.categoryName ∉ dictKeys (initCats d.categories "expense") := by
      rw [mem_dictKeys_initCats]; exact hnm
    obtain ⟨k, hk⟩ :=
      accumCats_err d.cashflow.byCategory "expense" (-1)
        (initCats d.categories "expense") ⟨e, he, hty, hnm2⟩
    refine ⟨k, ?_⟩
    unfold expenseHandleUpdate
    rw [hk]

/-- Snapshot for the C10 witness: one income byCategory entry whose
category does not appear in the categories dataset. -/
def snapC10 : SnapshotData :=
  { accounts := []
  , categories := []
  , cashflow :=
    { summary := [⟨⟨0, 0, 0, 0⟩⟩]
    , byCategory := [⟨"Paycheck", "income", 10⟩] } }

/-- C10 witness: the income sensor update raises KeyError on the unknown
category name. -/
theorem c10_witness : ∃ k, incomeHandleUpdate snapC10 = .error (.keyError k) :=
  (c10_theorem snapC10).1
    ⟨⟨"Paycheck", "income", 10⟩, by simp [snapC10], rfl,
      by simp [snapC10, categoryNames]⟩

/-- A fetch sequence yields a snapshot exactly when all three remote
calls of that pass succeed, and the snapshot is assembled from their
payloads. -/
theorem fetchSequence_ok (env : PollEnv) (b : Bool) (d : SnapshotData)
    (h : fetchSequence env b = .ok d) :
    ∃ va vc vf, env.getAccounts b = .ok va ∧ env.getCategories b = .ok vc ∧
      env.getCashflow b = .ok vf ∧
      d = { accounts := va.getD [], categories := vc.getD []
          , cashflow := vf.getD emptyCashflow } := by
  unfold fetchSequence at h
  split at h
  next e heq => exact Except.noConfusion h
  next va heq =>
    split at h
    next e heq2 => exact Except.noConfusion h
    next vc heq2 =>
      split at h
      next e heq3 => exact Except.noConfusion h
      next vf heq3 => exact ⟨va, vc, vf, heq, heq2, heq3, (Except.ok.inj h).symm⟩

/-- A successful outer result comes from a successful inner body. -/
theorem asyncUpdateData_ok (env : PollEnv) (d : SnapshotData)
    (h : asyncUpdateData env = .ok d) : (updateInner env).1 = .ok d := by
  unfold asyncUpdateData at h
  split at h
  next d2 heq => exact Except.ok.inj h ▸ heq
  next heq => exact Except.noConfusion h
  next e heq hne => exact Except.noConfusion h

/-- A successful auth-recovery branch comes from a successful retried
fetch sequence. -/
theorem updateAuthBranch_ok (env : PollEnv) (m : String) (d : SnapshotData)
    (h : (updateAuthBranch env m).1 = .ok d) : fetchSequence env true = .ok d := by
  unfold updateAuthBranch at h
  split_ifs at h with h1 h2
  split at h
  next d2 heq => exact (Except.ok.inj h) ▸ heq
  next heq => exact Except.noConfusion h

/-- A successful inner body comes from a successful fetch sequence, the
initial one or the retried one. -/
theorem updateInner_ok (env : PollEnv) (d : SnapshotData)
    (h : (updateInner env).1 = .ok d) :
    fetchSequence env false = .ok d ∨ fetchSequence env true = .ok d := by
  unfold updateInner at h
  split at h
  next d2 heq => exact Or.inl ((Except.ok.inj h) ▸ heq)
  next heq => exact Except.noConfusion h
  next m heq => exact Or.inr (updateAuthBranch_ok env m d h)
  next m heq => exact Or.inr (updateAuthBranch_ok env m d h)

/-- C1: _async_update_data hands a data dict to the coordinator only when
all three fetches of one pass (the initial one, or the retried one after
re-authentication) succeeded, and the dict holds precisely those three
payloads; no partial dict is ever returned. -/
theorem c1_theorem (env : PollEnv) (d : SnapshotData)
    (h : asyncUpdateData env = .ok d) :
    (∃ va vc vf, env.getAccounts false = .ok va ∧
      env.getCategories false = .ok vc ∧ env.getCashflow false = .ok vf ∧
      d = { accounts := va.getD [], categories := vc.getD []
          , cashflow := vf.getD emptyCashflow }) ∨
    (∃ va vc vf, env.getAccounts true = .ok va ∧
      env.getCategories true = .ok vc ∧ env.getCashflow true = .ok vf ∧
      d = { accounts := va.getD [], categories := vc.getD []
          , cashflow := vf.getD emptyCashflow }) := by
  rcases updateInner_ok env d (asyncUpdateData_ok env d h) with hf | hf
  · exact Or.inl (fetchSequence_ok env false d hf)
  · exact Or.inr (fetchSequence_ok env true d hf)

/-- Environment of the C1 witness: all three fetches succeed. -/
def envC1 : PollEnv :=
  { getAccounts := fun _ => .ok none
  , getCategories := fun _ => .ok none
  , getCashflow := fun _ => .ok none
  , reauthSucceeds := false }

/-- C1 witness: a fully successful cycle satisfies the success
characterisation. -/
theorem c1_witness :
    (∃ va vc vf, envC1.getAccounts false = .ok va ∧
      envC1.getCategories false = .ok vc ∧ envC1.getCashflow false = .ok vf ∧
      ({ accounts := [], categories := [], cashflow := emptyCashflow }
          : SnapshotData) =
        { accounts := va.getD [], categories := vc.getD []
        , cashflow := vf.getD emptyCashflow }) ∨
    (∃ va vc vf, envC1.getAccounts true = .ok va ∧
      envC1.getCategories true = .ok vc ∧ envC1.getCashflow true = .ok vf ∧
      ({ accounts := [], categories := [], cashflow := emptyCashflow }
          : SnapshotData) =
        { accounts := va.getD [], categories := vc.getD []
        , cashflow := vf.getD emptyCashflow }) :=
  c1_theorem envC1
    { accounts := [], categories := [], cashflow := emptyCashflow } rfl

/-- C7: whatever the remote calls raise, the poll cycle resolves to a
data dict, to ConfigEntryAuthFailed, or to UpdateFailed; no raw library
exception escapes _async_update_data. -/
theorem c7_theorem (env : PollEnv) :
    (∃ d, asyncUpdateData env = .ok d) ∨
    asyncUpdateData env = .error .configEntryAuthFailed ∨
    (∃ m, asyncUpdateData env = .error (.updateFailed m)) := by
  unfold asyncUpdateData
  split
  next d heq => exact Or.inl ⟨d, rfl⟩
  next heq => exact Or.inr (Or.inl rfl)
  next e heq hne => exact Or.inr (Or.inr ⟨_, rfl⟩)

/-- Behaviour of a cycle whose initial fetch sequence raised an exception
with message m (other than RequireMFAException). -/
theorem updateAuthBranch_behaviour (env : PollEnv) (m : String)
    (hui : updateInner env = updateAuthBranch env m) :
    (isAuthErrorMsg m = true →
      (cycleTrace env).reauthCalls = 1 ∧
      (env.reauthSucceeds = true →
        (cycleTrace env).fetchAttempts = 2 ∧
        ((∃ d, fetchSequence env true = .ok d ∧ asyncUpdateData env = .ok d) ∨
          ((∃ e2, fetchSequence env true = .error e2) ∧
            asyncUpdateData env = .error .configEntryAuthFailed))) ∧
      (env.reauthSucceeds = false →
        (cycleTrace env).fetchAttempts = 1 ∧
        asyncUpdateData env = .error .configEntryAuthFailed)) ∧
    (isAuthErrorMsg m = false →
      (cycleTrace env).reauthCalls = 0 ∧
      asyncUpdateData env = .error (.updateFailed
        ("Error communicating with API: "
          ++ ("Error communicating with API: " ++ m)))) := by
  constructor
  · intro hauth
    by_cases hre : env.reauthSucceeds = true
    · cases hft : fetchSequence env true with
      | ok d =>
        have hb : updateAuthBranch env m = (.ok d, ⟨1, 2⟩) := by
          simp [updateAuthBranch, hauth, hre, hft]
        refine ⟨by simp [cycleTrace, hui, hb], ?_, ?_⟩
        · exact fun _ => ⟨by simp [cycleTrace, hui, hb],
            Or.inl ⟨d, rfl, by simp [asyncUpdateData, hui, hb]⟩⟩
        · intro hre2; rw [hre2] at hre; exact Bool.noConfusion hre
      | error e2 =>
        have hb : updateAuthBranch env m =
            (.error .configEntryAuthFailed, ⟨1, 2⟩) := by
          simp [updateAuthBranch, hauth, hre, hft]
        refine ⟨by simp [cycleTrace, hui, hb], ?_, ?_⟩
        · exact fun _ => ⟨by simp [cycleTrace, hui, hb],
            Or.inr ⟨⟨e2, rfl⟩, by simp [asyncUpdateData, hui, hb]⟩⟩
        · intro hre2; rw [hre2] at hre; exact Bool.noConfusion hre
    · have hre2 : env.reauthSucceeds = false := by
        cases hb : env.reauthSucceeds
        · rfl
        · exact absurd hb hre
      have hb : updateAuthBranch env m =
          (.error .configEntryAuthFailed, ⟨1, 1⟩) := by
        simp [updateAuthBranch, hauth, hre2]
      refine ⟨by simp [cycleTrace, hui, hb], ?_, ?_⟩
      · intro hre3; exact absurd hre3 hre
      · exact fun _ => ⟨by simp [cycleTrace, hui, hb],
          by simp [asyncUpdateData, hui, hb]⟩
  · intro hfalse
    have hb : updateAuthBranch env m =
        (.error (.updateFailed ("Error communicating with API: " ++ m)), ⟨0, 1⟩) := by
      simp [updateAuthBranch, hfalse]
    exact ⟨by simp [cycleTrace, hui, hb],
      by simp [asyncUpdateData, hui, hb, innerExcMsg]⟩

/-- C2 (amended): when the initial fetch sequence of a cycle raises an
exception (other than RequireMFAException), then: on an
authentication-classified message, re-authentication is invoked exactly
once; if it succeeds, the entire three-call sequence is retried exactly
once and the cycle returns the retried snapshot on success or ends in
ConfigEntryAuthFailed on any retry error; if re-authentication fails,
the cycle ends in ConfigEntryAuthFailed without a retry; on a non-auth
message, re-authentication is not invoked and the cycle ends in
UpdateFailed. -/
theorem c2_theorem (env : PollEnv) (e : LibExc)
    (hfail : fetchSequence env false = .error e)
    (hmfa : e ≠ .requireMFA) :
    (isAuthErrorMsg (libExcMsg e) = true →
      (cycleTrace env).reauthCalls = 1 ∧
      (env.reauthSucceeds = true →
        (cycleTrace env).fetchAttempts = 2 ∧
        ((∃ d, fetchSequence env true = .ok d ∧ asyncUpdateData env = .ok d) ∨
          ((∃ e2, fetchSequence env true = .error e2) ∧
            asyncUpdateData env = .error .configEntryAuthFailed))) ∧
      (env.reauthSucceeds = false →
        (cycleTrace env).fetchAttempts = 1 ∧
        asyncUpdateData env = .error .configEntryAuthFailed)) ∧
    (isAuthErrorMsg (libExcMsg e) = false →
      (cycleTrace env).reauthCalls = 0 ∧
      asyncUpdateData env = .error (.updateFailed
        ("Error communicating with API: "
          ++ ("Error communicating with API: " ++ libExcMsg e)))) := by
  cases e with
  | requireMFA => exact absurd rfl hmfa
  | loginFailed m =>
    exact updateAuthBranch_behaviour env m (by unfold updateInner; rw [hfail])
  | other m =>
    exact updateAuthBranch_behaviour env m (by unfold updateInner; rw [hfail])

/-- Environment of the C2 counterexample and witness: the initial
get_accounts call raises an auth-classified error, re-authentication
succeeds, and the retried get_accounts call raises a non-auth
(transient network) error. -/
def envC2 : PollEnv :=
  { getAccounts := fun retry =>
      if retry then .error (.other "connection reset by peer")
      else .error (.other "401 client error: unauthorized")
  , getCategories := fun _ => .ok none
  , getCashflow := fun _ => .ok none
  , reauthSucceeds := true }

/-- C2 counterexample: in this cycle a fetch raised a non-auth error
("connection reset by peer" matches none of the auth substrings), yet
the cycle ends in ConfigEntryAuthFailed, not UpdateFailed — refuting the
claim that a cycle with a non-auth fetch error always ends in
FetchFailure and never AuthFailure. -/
theorem c2_counterexample :
    isAuthErrorMsg "connection reset by peer" = false ∧
    envC2.getAccounts true = .error (.other "connection reset by peer") ∧
    asyncUpdateData envC2 = .error .configEntryAuthFailed := by
  refine ⟨by decide, rfl, rfl⟩

/-- C2 witness: on the concrete environment, re-authentication runs
exactly once, the sequence is retried exactly once, and the cycle ends
in ConfigEntryAuthFailed. -/
theorem c2_witness :
    (cycleTrace envC2).reauthCalls = 1 ∧
    (cycleTrace envC2).fetchAttempts = 2 ∧
    asyncUpdateData envC2 = .error .configEntryAuthFailed := by
  have h := c2_theorem envC2 (.other "401 client error: unauthorized") rfl
    (by simp)
  have h1 := h.1 (by decide)
  have h2 := h1.2.1 rfl
  rcases h2.2 with ⟨d, hd, -⟩ | ⟨-, hres⟩
  · rw [show fetchSequence envC2 true =
        .error (.other "connection reset by peer") from rfl] at hd
    exact Except.noConfusion hd
  · exact ⟨h1.1, h2.1, hres⟩

/-- C5: two sequential re-authentication attempts less than 60 seconds
apart (the first one past the gate, with credentials configured) issue
exactly one live login: the second attempt short-circuits, returning
failure with no remote contact and no state change. -/
theorem c5_theorem (cfg : CoordConfig) (st0 : AuthState) (t1 t2 : ℚ)
    (login : Bool → Except LibExc Unit) (save : Except LibExc Unit)
    (hgate : 60 ≤ t1 - st0.lastAuthAttempt)
    (hclose : t2 - t1 < 60)
    (hemail : truthyOptStr cfg.email = true)
    (hpass : truthyOptStr cfg.password = true) :
    (authenticateWithCredentials cfg st0 t1 login save).liveLogins = 1 ∧
    authenticateWithCredentials cfg
        (authenticateWithCredentials cfg st0 t1 login save).state t2 login save =
      { success := false
      , state := (authenticateWithCredentials cfg st0 t1 login save).state
      , liveLogins := 0 } := by
  have hfirst : ∃ b, authenticateWithCredentials cfg st0 t1 login save =
      { success := b, state := { lastAuthAttempt := t1 }, liveLogins := 1 } := by
    unfold authenticateWithCredentials
    rw [if_neg (not_lt.mpr hgate), if_neg (by simp [hemail, hpass])]
    cases login (mfaSecretUsable cfg.mfaSecret) with
    | ok u =>
      cases save with
      | ok v => exact ⟨true, rfl⟩
      | error e => exact ⟨false, rfl⟩
    | error e => exact ⟨false, rfl⟩
  obtain ⟨b, hb⟩ := hfirst
  rw [hb]
  refine ⟨rfl, ?_⟩
  unfold authenticateWithCredentials
  rw [if_pos
    (show t2 - ({ lastAuthAttempt := t1 } : AuthState).lastAuthAttempt < 60
      from hclose)]

/-- Configuration for the C5 witness. -/
def cfgC5 : CoordConfig :=
  { email := some "user", password := some "pw", mfaSecret := none }

/-- C5 witness: a first attempt at t = 100 issues one live login and a
second attempt at t = 130 short-circuits. -/
theorem c5_witness :
    (authenticateWithCredentials cfgC5 ⟨0⟩ 100
        (fun _ => Except.ok ()) (Except.ok ())).liveLogins = 1 ∧
    authenticateWithCredentials cfgC5
        (authenticateWithCredentials cfgC5 ⟨0⟩ 100
          (fun _ => Except.ok ()) (Except.ok ())).state 130
        (fun _ => Except.ok ()) (Except.ok ()) =
      { success := false
      , state := (authenticateWithCredentials cfgC5 ⟨0⟩ 100
          (fun _ => Except.ok ()) (Except.ok ())).state
      , liveLogins := 0 } :=
  c5_theorem cfgC5 ⟨0⟩ 100 130 (fun _ => Except.ok ()) (Except.ok ())
    (by norm_num) (by norm_num) rfl rfl

/-- C6: under a remote service that answers the login with an MFA
challenge which a configured secret completes automatically (login
without the secret raises RequireMFAException, login carrying the secret
succeeds): the config-flow connection test succeeds without surfacing
RequireMFA when a secret is configured and fails with RequireMFA when it
is not; likewise the coordinator re-authentication succeeds exactly when
a usable MFA secret is configured. -/
theorem c6_theorem (login : Bool → Except LibExc Unit) (post : Except LibExc Unit)
    (cfg : CoordConfig) (st : AuthState) (now : ℚ) (save : Except LibExc Unit)
    (hchal : login false = .error .requireMFA)
    (hsec : login true = .ok ())
    (hpost : post = .ok ()) (hsave : save = .ok ())
    (hgate : 60 ≤ now - st.lastAuthAttempt)
    (hemail : truthyOptStr cfg.email = true)
    (hpass : truthyOptStr cfg.password = true) :
    testConnectionAndSetToken true login post = .ok () ∧
    testConnectionAndSetToken false login post = .error .requireMFA ∧
    (authenticateWithCredentials cfg st now login save).success =
      mfaSecretUsable cfg.mfaSecret := by
  refine ⟨?_, ?_, ?_⟩
  · simp [testConnectionAndSetToken, hsec, hpost]
  · simp [testConnectionAndSetToken, hchal]
  · unfold authenticateWithCredentials
    rw [if_neg (not_lt.mpr hgate), if_neg (by simp [hemail, hpass])]
    cases hm : mfaSecretUsable cfg.mfaSecret with
    | false => rw [hchal]
    | true => rw [hsec, hsave]

/-- Remote login of the C6 witness: an MFA challenge that the secret
completes. -/
def loginC6 : Bool → Except LibExc Unit := fun withSecret =>
  if withSecret then .ok () else .error .requireMFA

/-- Configuration for the C6 witness, with a usable MFA secret. -/
def cfgC6 : CoordConfig :=
  { email := some "user", password := some "pw", mfaSecret := some "JBSWY3DP" }

/-- C6 witness: with the secret configured the flows succeed; dropping
the secret argument surfaces RequireMFA. -/
theorem c6_witness :
    testConnectionAndSetToken true loginC6 (Except.ok ()) = .ok () ∧
    testConnectionAndSetToken false loginC6 (Except.ok ()) = .error .requireMFA ∧
    (authenticateWithCredentials cfgC6 ⟨0⟩ 100 loginC6
        (Except.ok ())).success = mfaSecretUsable cfgC6.mfaSecret :=
  c6_theorem loginC6 (Except.ok ()) cfgC6 ⟨0⟩ 100 (Except.ok ())
    rfl rfl rfl rfl (by norm_num) rfl rfl

end Monarch
